import Mathlib

/-!
Formal model of the core of a retrieval-augmented question-answering
pipeline over tabular data (source files: `rag_pipeline.py`, `app.py`).
The pure parts of the program (code sanitizer, prompt assembly, history
pairing, retry loop, restricted namespace construction) are embedded as
executable Lean functions; the two external effects (the completion
service and the Python evaluator invoked by `exec`) are oracle
parameters, and the heap/aliasing behaviour of dataset copies is
modelled with an explicit reference heap.
-/

/-! ### Code Sanitizer

Model of `_IMPORT_RE = re.compile(r"^\s*(import |from \S+ import )", re.MULTILINE)`
and `_sanitize_code(code) = _IMPORT_RE.sub("", code)` from `rag_pipeline.py`.

`re.sub` scans the subject left to right, replacing each non-overlapping
match of the pattern by the empty string; with `re.MULTILINE`, `^` matches
at the start of the subject and immediately after each newline.  The
pattern itself is deterministic under backtracking: `\s*` is maximal
(the alternation starts with a non-space character), and `\S+` is maximal
(the following literal starts with a space), so a greedy scanner without
backtracking is an exact model.  `\s` is modelled by the six ASCII
whitespace characters (the Python pattern would additionally match some
rarer Unicode whitespace; all fragments considered here are ASCII).
-/

/-- The characters matched by the regex class `\s` (ASCII fragment). -/
def pySpace (c : Char) : Bool :=
  c == ' ' || c == '\t' || c == '\n' || c == '\r' || c == '\x0b' || c == '\x0c'

/-- Strip a literal off the front of a character list, returning the rest
on success (model of matching a literal piece of the regex). -/
def stripLit : List Char → List Char → Option (List Char)
  | [], rest => some rest
  | _ :: _, [] => none
  | l :: ls, c :: cs => if c == l then stripLit ls cs else none

/-- Try to match `\s*(import |from \S+ import )` at the given position
(which the caller guarantees to be a line start, i.e. an `^` position of
the MULTILINE regex).  Returns the remainder of the text after the match. -/
def matchImportAt (s : List Char) : Option (List Char) :=
  let t := s.dropWhile pySpace
  match stripLit "import ".data t with
  | some rest => some rest
  | none =>
      match stripLit "from ".data t with
      | none => none
      | some afterFrom =>
          let modName := afterFrom.takeWhile (fun c => !pySpace c)
          if modName.isEmpty then none
          else
            match stripLit " import ".data (afterFrom.drop modName.length) with
            | some rest => some rest
            | none => none

/-- The scanning loop of `re.sub`: walk the text; at each `^` position try
the pattern; on a match, drop the matched span and continue right after it
(every match ends with a space character, so the position after a match is
never a line start); otherwise copy one character.  The fuel argument is an
upper bound on the number of steps; every step consumes at least one
character, so fuel equal to the length of the text is always sufficient. -/
def sanitizeAux : Nat → Bool → List Char → List Char
  | 0, _, s => s
  | _ + 1, _, [] => []
  | fuel + 1, atLineStart, c :: cs =>
      if atLineStart then
        match matchImportAt (c :: cs) with
        | some rest => sanitizeAux fuel false rest
        | none => c :: sanitizeAux fuel (c == '\n') cs
      else
        c :: sanitizeAux fuel (c == '\n') cs

/-- Model of `RAGPipeline._sanitize_code`: `_IMPORT_RE.sub("", code)`. -/
def sanitize_code (code : String) : String :=
  String.mk (sanitizeAux code.data.length true code.data)

/-- A fragment "contains no import line" when the import pattern matches at
none of its `^` positions (so `re.sub` finds nothing to replace). -/
def noImportAux : Bool → List Char → Bool
  | _, [] => true
  | atLineStart, c :: cs =>
      (if atLineStart then (matchImportAt (c :: cs)).isNone else true)
        && noImportAux (c == '\n') cs

/-- Decidable check that a fragment contains no import line. -/
def noImport (code : String) : Bool := noImportAux true code.data

theorem sanitizeAux_succ_false (n : Nat) (c : Char) (cs : List Char) :
    sanitizeAux (n + 1) false (c :: cs) = c :: sanitizeAux n (c == '\n') cs := rfl

theorem sanitizeAux_succ_true (n : Nat) (c : Char) (cs : List Char) :
    sanitizeAux (n + 1) true (c :: cs) =
      match matchImportAt (c :: cs) with
      | some rest => sanitizeAux n false rest
      | none => c :: sanitizeAux n (c == '\n') cs := rfl

theorem sanitizeAux_of_noImport (cs : List Char) :
    ∀ (fuel : Nat) (atLS : Bool), cs.length ≤ fuel →
      noImportAux atLS cs = true → sanitizeAux fuel atLS cs = cs := by
  induction cs with
  | nil => intro fuel atLS _ _; cases fuel <;> rfl
  | cons c cs ih =>
      intro fuel atLS hf hn
      cases fuel with
      | zero => simp at hf
      | succ n =>
          simp only [noImportAux, Bool.and_eq_true] at hn
          obtain ⟨h1, h2⟩ := hn
          have hlen : cs.length ≤ n := by
            simpa using hf
          cases atLS with
          | false =>
              rw [sanitizeAux_succ_false]
              exact congrArg (c :: ·) (ih n (c == '\n') hlen h2)
          | true =>
              have hm : matchImportAt (c :: cs) = none := by
                simpa [Option.isNone_iff_eq_none] using h1
              rw [sanitizeAux_succ_true, hm]
              exact congrArg (c :: ·) (ih n (c == '\n') hlen h2)

/-- C1: the spec says the sanitizer removes every standalone import line in
its entirety.  The code substitutes only the matched prefix (`import ` or
`from X import `, with leading whitespace) by the empty string, so the rest
of the import line survives: on `"import os\nresult = 1"` the sanitizer
returns `"os\nresult = 1"`, not `"result = 1"`. -/
theorem sanitize_code_leaves_import_residue :
    sanitize_code "import os\nresult = 1" = "os\nresult = 1" ∧
      sanitize_code "import os\nresult = 1" ≠ "result = 1" := by
  constructor
  · rfl
  · decide

/-- C7 counterexample: the sanitizer is not idempotent.  One pass over
`"import import os"` removes only the first `import ` prefix, leaving
`"import os"`, which a second pass reduces further to `"os"`. -/
theorem sanitize_code_not_idempotent :
    sanitize_code (sanitize_code "import import os") ≠
      sanitize_code "import import os" := by
  decide

/-- C7 (amended): on fragments containing no import line the sanitizer is
the identity, and hence idempotent; full idempotence fails (see the
counterexample). -/
theorem sanitize_code_noImport_id (code : String) (h : noImport code = true) :
    sanitize_code code = code ∧
      sanitize_code (sanitize_code code) = sanitize_code code := by
  have hid : sanitize_code code = code := by
    have h' : noImportAux true code.data = true := h
    have hfix := sanitizeAux_of_noImport code.data code.data.length true (Nat.le_refl _) h'
    show String.mk (sanitizeAux code.data.length true code.data) = code
    rw [hfix]
  exact ⟨hid, by rw [hid]; exact hid⟩

/-- C7 witness: a concrete fragment with no import line is fixed by the
sanitizer. -/
theorem sanitize_code_noImport_id_w :
    sanitize_code "x = 1\ny = 2" = "x = 1\ny = 2" ∧
      sanitize_code (sanitize_code "x = 1\ny = 2") = sanitize_code "x = 1\ny = 2" :=
  sanitize_code_noImport_id "x = 1\ny = 2" (by decide)

/-! ### Sandboxed Execution Engine

Model of `_SAFE_BUILTINS` and `RAGPipeline._execute_code` from
`rag_pipeline.py`.  Python values flowing through the engine are modelled
by `PyVal`: a data-frame or series carries its canonical textual rendering
(`to_string(index=False)` resp. `to_string()`), any other object carries
its `str()` form, and the module / builtin-dict objects bound into the
namespace are tagged opaquely.  The Python evaluator invoked by
`exec(code, ns)` is an oracle: given the code text and the initial
namespace it either returns the final namespace or raises, which the model
represents as `Except.error` carrying the `traceback.format_exc()` text.
-/

/-- A Python value, as far as the pipeline inspects one. -/
inductive PyVal where
  | pyNone
  | pyModule (name : String)
  | builtinsMap (names : List String)
  | dataFrame (data : String)
  | series (render : String)
  | other (render : String)
deriving DecidableEq

/-- The three canonical datasets held by the pipeline (`self.dfs`); each
dataset is identified with its tabular content. -/
structure Datasets where
  clients : String
  invoices : String
  line_items : String
deriving DecidableEq

/-- The names enumerated in `_SAFE_BUILTINS` (every listed name is a
standard CPython builtin, so the `hasattr(builtins, name)` filter in the
source keeps all of them). -/
def safeBuiltinNames : List String :=
  ["abs", "all", "any", "bool", "dict", "enumerate", "filter", "float",
   "frozenset", "getattr", "hasattr", "int", "isinstance", "issubclass",
   "iter", "len", "list", "map", "max", "min", "next", "print", "range",
   "reversed", "round", "set", "slice", "sorted", "str", "sum", "tuple",
   "type", "zip",
   "Exception", "ValueError", "TypeError", "KeyError", "IndexError",
   "AttributeError", "ZeroDivisionError", "RuntimeError",
   "True", "False", "None"]

/-- The namespace dictionary built by `_execute_code` (source lines
123-129): the allow-listed builtins, the three library modules, and the
three dataset copies (`.copy()` is value-level here; aliasing of the
copies is analysed separately with the reference heap below). -/
def initNamespace (dfs : Datasets) : List (String × PyVal) :=
  [("__builtins__", PyVal.builtinsMap safeBuiltinNames),
   ("pd", PyVal.pyModule "pandas"),
   ("np", PyVal.pyModule "numpy"),
   ("datetime", PyVal.pyModule "datetime"),
   ("clients", PyVal.dataFrame dfs.clients),
   ("invoices", PyVal.dataFrame dfs.invoices),
   ("line_items", PyVal.dataFrame dfs.line_items)]

/-- Dictionary lookup, as in `ns.get(key)`. -/
def lookupNs (ns : List (String × PyVal)) (key : String) : Option PyVal :=
  (ns.find? (fun kv => kv.1 == key)).map (fun kv => kv.2)

/-- The fixed placeholder returned when generated code never assigned the
reserved output name (`ns.get("result", "No \x60result\x60 variable was set.")`). -/
def missingResultMsg : String := "No `result` variable was set."

/-- The Python evaluator behind `exec(code, ns)`: an oracle mapping code
text and initial namespace to either the final namespace or the
`traceback.format_exc()` text of an uncaught exception. -/
abbrev PyEval := String → List (String × PyVal) → Except String (List (String × PyVal))

/-- Model of `RAGPipeline._execute_code`: sanitize, build the restricted
namespace, evaluate, then read the reserved output name with the
placeholder default; an exception yields `(None, trace)`. -/
def execute_code (evalPy : PyEval) (dfs : Datasets) (code : String) :
    PyVal × Option String :=
  match evalPy (sanitize_code code) (initNamespace dfs) with
  | Except.ok ns => ((lookupNs ns "result").getD (PyVal.other missingResultMsg), none)
  | Except.error trace => (PyVal.pyNone, some trace)

/-- The Result Serializer (source lines 177-182): a data frame renders via
`to_string(index=False)`, a series via `to_string()`, anything else via
`str(...)` (in particular `str(None) = "None"`). -/
def renderResult : PyVal → String
  | PyVal.dataFrame d => d
  | PyVal.series r => r
  | PyVal.pyNone => "None"
  | PyVal.pyModule n => "<module " ++ n ++ ">"
  | PyVal.builtinsMap _ => "<builtins dict>"
  | PyVal.other r => r

/-- C4: if evaluation of the sanitized fragment completes without raising
and the final namespace has no `result` binding, execution reports no
error and returns the fixed placeholder string. -/
theorem execute_code_missing_result (evalPy : PyEval) (dfs : Datasets)
    (code : String) (ns : List (String × PyVal))
    (hok : evalPy (sanitize_code code) (initNamespace dfs) = Except.ok ns)
    (hmiss : lookupNs ns "result" = none) :
    execute_code evalPy dfs code = (PyVal.other missingResultMsg, none) := by
  simp [execute_code, hok, hmiss]

/-- C4 witness: an evaluator that runs the fragment as a no-op leaves the
namespace without a `result` binding, and execution succeeds with the
placeholder. -/
theorem execute_code_missing_result_w :
    execute_code (fun _ ns => Except.ok ns) ⟨"", "", ""⟩ "x = 1" =
      (PyVal.other missingResultMsg, none) :=
  execute_code_missing_result (fun _ ns => Except.ok ns) ⟨"", "", ""⟩ "x = 1"
    (initNamespace ⟨"", "", ""⟩) rfl (by decide)

/-- C5: if evaluation of the sanitized fragment raises, execution reports
failure with the (non-empty) trace and returns no result value. -/
theorem execute_code_exception (evalPy : PyEval) (dfs : Datasets)
    (code : String) (trace : String)
    (hraise : evalPy (sanitize_code code) (initNamespace dfs) = Except.error trace)
    (hne : trace ≠ "") :
    execute_code evalPy dfs code = (PyVal.pyNone, some trace) ∧ trace ≠ "" := by
  exact ⟨by simp [execute_code, hraise], hne⟩

/-- C5 witness: a raising evaluator produces the captured trace and the
absent result. -/
theorem execute_code_exception_w :
    execute_code (fun _ _ => Except.error "Traceback: boom") ⟨"", "", ""⟩ "x = 1" =
      (PyVal.pyNone, some "Traceback: boom") ∧ "Traceback: boom" ≠ "" :=
  execute_code_exception (fun _ _ => Except.error "Traceback: boom") ⟨"", "", ""⟩
    "x = 1" "Traceback: boom" rfl (by decide)

/-- C9: the execution environment consists of exactly the allow-listed
builtins dictionary, the three library bindings and the three dataset
copies; the allow-list itself contains no filesystem / process /
dynamic-import primitive (`open`, `__import__`, `eval`, `exec`, `compile`). -/
theorem restricted_namespace_bindings (dfs : Datasets) :
    (initNamespace dfs).map Prod.fst =
      ["__builtins__", "pd", "np", "datetime", "clients", "invoices", "line_items"] ∧
    "open" ∉ safeBuiltinNames ∧ "__import__" ∉ safeBuiltinNames ∧
    "eval" ∉ safeBuiltinNames ∧ "exec" ∉ safeBuiltinNames ∧
    "compile" ∉ safeBuiltinNames := by
  refine ⟨rfl, ?_, ?_, ?_, ?_, ?_⟩ <;> decide

/-! ### Retry Controller / Orchestrator

Model of `RAGPipeline.ask` (source lines 155-190).  The two completion
calls `_generate_code(prompt, history)` and
`_generate_answer(question, data_str, history)` are oracle parameters
(their outputs come from the external Completion Service); the executed
code goes through `execute_code` above.  The loop
`for _ in range(max_retries)` is modelled by fuel counting the remaining
iterations (for a negative budget `range` is empty, hence `Int.toNat`).
Besides the returned dictionary the model also returns the trace
measures `(executions, generations)`: the number of `_execute_code`
resp. `_generate_code` calls performed, incremented exactly where the
source performs them. -/

/-- One resolved question/answer exchange (a history `Turn`, as built by
the chat surface: question, answer, generated code, rendered data). -/
structure Turn where
  question : String
  answer : String
  code : String
  data : String
deriving DecidableEq

/-- The dictionary returned by `ask`. -/
structure AskResult where
  answer : String
  code : String
  data : String
  error : Option String
deriving DecidableEq

/-- The corrective prompt built on a retry (source lines 166-169). -/
def fixPrompt (lastError question : String) : String :=
  "The previous code raised an error:\n" ++ lastError ++
    "\n\nOriginal question: " ++ question ++ "\n\nPlease fix the code."

/-- The fixed user-facing apology returned on exhaustion (source line 188). -/
def apologyAnswer : String :=
  "Sorry, I couldn\x27t retrieve the data. Try rephrasing your question."

/-- The retry loop of `ask`, with `fuel` the remaining iterations and
`lastError` / `code` the loop-carried state (both start as `None` / `""`). -/
def askLoop (genCode : String → List Turn → String)
    (genAnswer : String → String → List Turn → String)
    (evalPy : PyEval) (dfs : Datasets)
    (question : String) (history : List Turn) :
    Nat → Option String → String → AskResult × Nat × Nat
  | 0, lastError, code =>
      ({ answer := apologyAnswer, code := code, data := "", error := lastError }, 0, 0)
  | fuel + 1, lastError, _ =>
      let code :=
        match lastError with
        | none => genCode question history
        | some e => genCode (fixPrompt e question) history
      match execute_code evalPy dfs code with
      | (_, some err) =>
          match askLoop genCode genAnswer evalPy dfs question history fuel (some err) code with
          | (r, execs, gens) => (r, execs + 1, gens + 1)
      | (result, none) =>
          let dataStr := renderResult result
          ({ answer := genAnswer question dataStr history, code := code,
             data := dataStr, error := none }, 1, 1)

/-- Model of `RAGPipeline.ask`: run the loop with budget `max_retries`
(empty for non-positive budgets) and initial state `last_error = None`,
`code = ""`. -/
def ask (genCode : String → List Turn → String)
    (genAnswer : String → String → List Turn → String)
    (evalPy : PyEval) (dfs : Datasets)
    (question : String) (history : List Turn) (maxRetries : Int) :
    AskResult × Nat × Nat :=
  askLoop genCode genAnswer evalPy dfs question history maxRetries.toNat none ""

theorem askLoop_zero (genCode : String → List Turn → String)
    (genAnswer : String → String → List Turn → String)
    (evalPy : PyEval) (dfs : Datasets) (question : String) (history : List Turn)
    (lastError : Option String) (code : String) :
    askLoop genCode genAnswer evalPy dfs question history 0 lastError code =
      ({ answer := apologyAnswer, code := code, data := "", error := lastError }, 0, 0) := rfl

theorem askLoop_first_fail (genCode : String → List Turn → String)
    (genAnswer : String → String → List Turn → String)
    (evalPy : PyEval) (dfs : Datasets) (question : String) (history : List Turn)
    (fuel : Nat) (code0 c : String) (v : PyVal) (e : String)
    (hc : genCode question history = c)
    (hx : execute_code evalPy dfs c = (v, some e)) :
    askLoop genCode genAnswer evalPy dfs question history (fuel + 1) none code0 =
      (match askLoop genCode genAnswer evalPy dfs question history fuel (some e) c with
       | (r, execs, gens) => (r, execs + 1, gens + 1)) := by
  subst hc
  simp only [askLoop, hx]

theorem askLoop_retry_fail (genCode : String → List Turn → String)
    (genAnswer : String → String → List Turn → String)
    (evalPy : PyEval) (dfs : Datasets) (question : String) (history : List Turn)
    (fuel : Nat) (ePrev : String) (code0 c : String) (v : PyVal) (e : String)
    (hc : genCode (fixPrompt ePrev question) history = c)
    (hx : execute_code evalPy dfs c = (v, some e)) :
    askLoop genCode genAnswer evalPy dfs question history (fuel + 1) (some ePrev) code0 =
      (match askLoop genCode genAnswer evalPy dfs question history fuel (some e) c with
       | (r, execs, gens) => (r, execs + 1, gens + 1)) := by
  subst hc
  simp only [askLoop, hx]

/-- C2: with budget 2 and generated code that always fails to execute,
`ask` performs exactly 2 execution attempts (and 2 generation calls) and
returns the exhaustion response: the fixed apology, the second attempted
code (non-empty whenever the generator output is), empty data, and the
second attempt trace as the error. -/
theorem ask_budget_two_exhaustion (genCode : String → List Turn → String)
    (genAnswer : String → String → List Turn → String)
    (evalPy : PyEval) (dfs : Datasets) (q : String) (hist : List Turn)
    (c1 c2 e1 e2 : String)
    (hgen1 : genCode q hist = c1)
    (hexec1 : execute_code evalPy dfs c1 = (PyVal.pyNone, some e1))
    (hgen2 : genCode (fixPrompt e1 q) hist = c2)
    (hexec2 : execute_code evalPy dfs c2 = (PyVal.pyNone, some e2))
    (hc2 : c2 ≠ "") :
    ask genCode genAnswer evalPy dfs q hist 2 =
      ({ answer := apologyAnswer, code := c2, data := "", error := some e2 }, 2, 2) ∧
    c2 ≠ "" := by
  refine ⟨?_, hc2⟩
  have h0 : ask genCode genAnswer evalPy dfs q hist 2 =
      askLoop genCode genAnswer evalPy dfs q hist (1 + 1) none "" := rfl
  rw [h0, askLoop_first_fail genCode genAnswer evalPy dfs q hist 1 "" c1 PyVal.pyNone e1
    hgen1 hexec1]
  have h1 : askLoop genCode genAnswer evalPy dfs q hist 1 (some e1) c1 =
      askLoop genCode genAnswer evalPy dfs q hist (0 + 1) (some e1) c1 := rfl
  rw [h1, askLoop_retry_fail genCode genAnswer evalPy dfs q hist 0 e1 c1 c2 PyVal.pyNone e2
    hgen2 hexec2]
  rw [askLoop_zero]

/-- C2 witness: a generator that always produces the same failing fragment
exhausts the budget of 2 after exactly two executions. -/
theorem ask_budget_two_exhaustion_w :
    ask (fun _ _ => "bad") (fun _ _ _ => "") (fun _ _ => Except.error "boom")
        ⟨"", "", ""⟩ "Q" [] 2 =
      ({ answer := apologyAnswer, code := "bad", data := "", error := some "boom" }, 2, 2) ∧
    ("bad" : String) ≠ "" :=
  ask_budget_two_exhaustion (fun _ _ => "bad") (fun _ _ _ => "")
    (fun _ _ => Except.error "boom") ⟨"", "", ""⟩ "Q" [] "bad" "bad" "boom" "boom"
    rfl rfl rfl rfl (by decide)

/-- C10: with a non-positive retry budget, `ask` performs no generation
and no execution and returns the apology with empty code and data and an
absent error. -/
theorem ask_nonpositive_budget (genCode : String → List Turn → String)
    (genAnswer : String → String → List Turn → String)
    (evalPy : PyEval) (dfs : Datasets) (q : String) (hist : List Turn)
    (n : Int) (hn : n ≤ 0) :
    ask genCode genAnswer evalPy dfs q hist n =
      ({ answer := apologyAnswer, code := "", data := "", error := none }, 0, 0) := by
  unfold ask
  rw [Int.toNat_of_nonpos hn, askLoop_zero]

/-- C10 witness: budget `-1` (in particular non-positive) yields the
apology with no attempts. -/
theorem ask_nonpositive_budget_w :
    ask (fun _ _ => "x") (fun _ _ _ => "y") (fun _ ns => Except.ok ns)
        ⟨"", "", ""⟩ "Q" [] (-1) =
      ({ answer := apologyAnswer, code := "", data := "", error := none }, 0, 0) :=
  ask_nonpositive_budget (fun _ _ => "x") (fun _ _ _ => "y") (fun _ ns => Except.ok ns)
    ⟨"", "", ""⟩ "Q" [] (-1) (by decide)

/-! ### History Distiller

Model of the pairing loop in `app.py` (lines 57-71): walk the flat
role-tagged transcript; whenever a user message is immediately followed by
an assistant message, emit a Turn carrying the `code`
and `data` fields (defaulting to `""` when absent) and advance past both;
otherwise advance one message.  The loop condition `i < len(msgs) - 1`
stops as soon as fewer than two messages remain, so a trailing user
message (the just-submitted question) is never paired. -/

/-- One entry of the chat transcript; user entries carry no `code`/`data`
keys, assistant entries do. -/
structure TranscriptMsg where
  role : String
  content : String
  code : Option String
  data : Option String
deriving DecidableEq

/-- The pairing loop building the History Context from the transcript. -/
def buildHistory : List TranscriptMsg → List Turn
  | m1 :: m2 :: rest =>
      if m1.role == "user" && m2.role == "assistant" then
        { question := m1.content, answer := m2.content,
          code := m2.code.getD "", data := m2.data.getD "" } :: buildHistory rest
      else
        buildHistory (m2 :: rest)
  | _ => []

/-- A user entry, as appended by the chat surface. -/
def userMsg (content : String) : TranscriptMsg :=
  { role := "user", content := content, code := none, data := none }

/-- An assistant entry, as appended by the chat surface. -/
def asstMsg (content code data : String) : TranscriptMsg :=
  { role := "assistant", content := content, code := some code, data := some data }

/-- C6: on the transcript `[Q1, A1, Q2, A2, Q3]` the distilled context is
exactly the turns `(Q1, A1)` and `(Q2, A2)` in order, carrying the
code and data of the assistant entries; moreover a user message followed by
another user message (for example the just-submitted question) is skipped. -/
theorem history_distiller_pairing (q1 a1 c1 d1 q2 a2 c2 d2 q3 : String) :
    buildHistory
        [userMsg q1, asstMsg a1 c1 d1, userMsg q2, asstMsg a2 c2 d2, userMsg q3] =
      [{ question := q1, answer := a1, code := c1, data := d1 },
       { question := q2, answer := a2, code := c2, data := d2 }] ∧
    ∀ (q q' : String) (rest : List TranscriptMsg),
      buildHistory (userMsg q :: userMsg q' :: rest) =
        buildHistory (userMsg q' :: rest) :=
  ⟨rfl, fun _ _ _ => rfl⟩

/-! ### Code-synthesis prompt assembly

Model of the message assembly in `RAGPipeline._generate_code` (source
lines 82-99): a system message embedding the schema, then per history turn
a user/assistant pair plus, when the turn carries non-empty rendered data,
a user message quoting that data — truncated at 2000 characters with an
explicit marker when longer — and finally the user question. -/

/-- A role-tagged message sent to the Completion Service. -/
structure ChatMsg where
  role : String
  content : String
deriving DecidableEq

/-- The system instruction `CODE_GEN_SYSTEM.format(schema=schema)`. -/
def codeGenSystem (schema : String) : String :=
  "You are a data analyst. Given the schema below, write Python/pandas code that " ++
  "answers the user\x27s question.\n\n" ++ schema ++ "\n\n" ++
  "The DataFrames `clients`, `invoices`, and `line_items` are already loaded. " ++
  "pandas is available as `pd`, numpy as `np`, and the `datetime` module is " ++
  "available as `datetime`. Do NOT import anything or read files.\n\n" ++
  "Output ONLY valid Python code (no markdown, no explanations). Store the final " ++
  "answer in a variable called `result` (DataFrame, Series, scalar, or string).\n\n" ++
  "Key rules:\n" ++
  "- Use pd.Timestamp for date comparisons.\n" ++
  "- Line total including tax = quantity * unit_price * (1 + tax_rate).\n" ++
  "- Do NOT use print().\n" ++
  "- If the question asks to \"list\" something, make result a DataFrame.\n\n" ++
  "If conversation history is provided and the user refers to a previous answer " ++
  "(\"which of those\", \"from them\", etc.), use the prior context to understand " ++
  "what they mean and write code accordingly.\n"

/-- The data-preview clamp (source lines 92-93): previews longer than 2000
characters are cut at 2000 and marked as truncated. -/
def truncPreview (preview : String) : String :=
  if 2000 < preview.length then preview.take 2000 ++ "\n... (truncated)"
  else preview

/-- The per-turn messages contributed by the history loop. -/
def historyPromptMsgs : List Turn → List ChatMsg
  | [] => []
  | t :: ts =>
      [{ role := "user", content := t.question },
       { role := "assistant", content := t.code }] ++
      (if t.data ≠ "" then
        [{ role := "user",
           content := "[Code returned:\n```\n" ++ truncPreview t.data ++ "\n```]" }]
       else []) ++
      historyPromptMsgs ts

/-- The full message list assembled by `_generate_code`. -/
def codeGenMessages (schema question : String) (history : List Turn) : List ChatMsg :=
  { role := "system", content := codeGenSystem schema } ::
    (historyPromptMsgs history ++ [{ role := "user", content := question }])

/-- C8: a history turn whose rendered data exceeds 2000 characters
contributes its preview cut at 2000 characters followed by the truncation
marker; a turn with (non-empty) data of at most 2000 characters
contributes it verbatim, with no marker appended. -/
theorem history_preview_truncation (schema q : String) (t t' : Turn)
    (hlong : 2000 < t.data.length) (hshort : t'.data.length ≤ 2000)
    (hne : t'.data ≠ "") :
    codeGenMessages schema q [t] =
      [{ role := "system", content := codeGenSystem schema },
       { role := "user", content := t.question },
       { role := "assistant", content := t.code },
       { role := "user",
         content := "[Code returned:\n```\n" ++
           (t.data.take 2000 ++ "\n... (truncated)") ++ "\n```]" },
       { role := "user", content := q }] ∧
    codeGenMessages schema q [t'] =
      [{ role := "system", content := codeGenSystem schema },
       { role := "user", content := t'.question },
       { role := "assistant", content := t'.code },
       { role := "user", content := "[Code returned:\n```\n" ++ t'.data ++ "\n```]" },
       { role := "user", content := q }] := by
  have htne : t.data ≠ "" := by
    intro he
    rw [he] at hlong
    exact absurd hlong (by decide)
  have hnotlong : ¬ 2000 < t'.data.length := Nat.not_lt.mpr hshort
  constructor
  · simp [codeGenMessages, historyPromptMsgs, truncPreview, htne, hlong]
  · simp [codeGenMessages, historyPromptMsgs, truncPreview, hne, hnotlong]

/-- C8 witness: a 2001-character preview is truncated and marked, a short
one is passed through verbatim. -/
theorem history_preview_truncation_w :
    codeGenMessages "S" "Q" [⟨"q1", "a1", "c1", String.mk (List.replicate 2001 'a')⟩] =
      [{ role := "system", content := codeGenSystem "S" },
       { role := "user", content := "q1" },
       { role := "assistant", content := "c1" },
       { role := "user",
         content := "[Code returned:\n```\n" ++
           ((String.mk (List.replicate 2001 'a')).take 2000 ++ "\n... (truncated)") ++
           "\n```]" },
       { role := "user", content := "Q" }] ∧
    codeGenMessages "S" "Q" [⟨"q2", "a2", "c2", "d2"⟩] =
      [{ role := "system", content := codeGenSystem "S" },
       { role := "user", content := "q2" },
       { role := "assistant", content := "c2" },
       { role := "user", content := "[Code returned:\n```\n" ++ "d2" ++ "\n```]" },
       { role := "user", content := "Q" }] :=
  history_preview_truncation "S" "Q" ⟨"q1", "a1", "c1", String.mk (List.replicate 2001 'a')⟩
    ⟨"q2", "a2", "c2", "d2"⟩
    (by show 2000 < (List.replicate 2001 'a').length
        rw [List.length_replicate]
        decide)
    (by decide) (by decide)

/-! ### Dataset copies and execution isolation

`_execute_code` binds `self.dfs[...].copy()` under the dataset names
(source lines 126-128).  To reason about mutation we model the Python
object store as a heap of dataset contents addressed by references:
the pipeline holds references to the canonical datasets, and building an
execution namespace allocates a fresh reference per dataset holding a
copy of the canonical content (`pandas.DataFrame.copy()`).  The evaluator
may mutate the heap, but only at the references bound into its namespace
(the copies); growth-only allocation is assumed (Python never reuses a
live reference).  Under exactly these frame assumptions the canonical
entries are untouched and a subsequent execution still sees the canonical
content. -/

/-- The references (heap indices) held by the pipeline to the three canonical
datasets. -/
structure PipelineRefs where
  clients : Nat
  invoices : Nat
  line_items : Nat

/-- Allocate a fresh reference holding a copy of the content at `r`
(model of `heap[r].copy()`). -/
def copyAlloc (heap : List String) (r : Nat) : List String × Nat :=
  (heap ++ [heap.getD r ""], heap.length)

/-- The heap and dataset references visible to one execution. -/
structure ExecBindings where
  heap : List String
  clients : Nat
  invoices : Nat
  line_items : Nat

/-- Build the dataset bindings of one execution: three fresh copies, in
source order (`clients`, `invoices`, `line_items`). -/
def initExecBindings (heap : List String) (p : PipelineRefs) : ExecBindings :=
  match copyAlloc heap p.clients with
  | (h1, c) =>
    match copyAlloc h1 p.invoices with
    | (h2, i) =>
      match copyAlloc h2 p.line_items with
      | (h3, l) => { heap := h3, clients := c, invoices := i, line_items := l }

/-- The table contents an execution started on `heap` actually sees
through its three bindings. -/
def execView (heap : List String) (p : PipelineRefs) : String × String × String :=
  ((initExecBindings heap p).heap.getD (initExecBindings heap p).clients "",
   (initExecBindings heap p).heap.getD (initExecBindings heap p).invoices "",
   (initExecBindings heap p).heap.getD (initExecBindings heap p).line_items "")

theorem getD_snoc3_lt (l : List String) (x y z : String) (r : Nat) (hr : r < l.length) :
    (((l ++ [x]) ++ [y]) ++ [z]).getD r "" = l.getD r "" := by
  rw [List.getD_append _ _ _ _
        (by simp only [List.length_append, List.length_cons, List.length_nil]; omega),
      List.getD_append _ _ _ _
        (by simp only [List.length_append, List.length_cons, List.length_nil]; omega),
      List.getD_append _ _ _ _ hr]

theorem getD_snoc3_first (l : List String) (x y z : String) :
    (((l ++ [x]) ++ [y]) ++ [z]).getD l.length "" = x := by
  rw [List.getD_append _ _ _ _
        (by simp only [List.length_append, List.length_cons, List.length_nil]; omega),
      List.getD_append _ _ _ _
        (by simp only [List.length_append, List.length_cons, List.length_nil]; omega),
      List.getD_append_right _ _ _ _ (Nat.le_refl _), Nat.sub_self,
      List.getD_cons_zero]

theorem getD_snoc3_second (l : List String) (x y z : String) :
    (((l ++ [x]) ++ [y]) ++ [z]).getD (l.length + 1) "" = y := by
  rw [List.getD_append _ _ _ _
        (by simp only [List.length_append, List.length_cons, List.length_nil]; omega),
      List.getD_append_right _ _ _ _
        (by simp only [List.length_append, List.length_cons, List.length_nil]; omega)]
  simp

theorem getD_snoc3_third (l : List String) (x y z : String) :
    (((l ++ [x]) ++ [y]) ++ [z]).getD (l.length + 2) "" = z := by
  rw [List.getD_append_right _ _ _ _
        (by simp only [List.length_append, List.length_cons, List.length_nil]; omega)]
  simp

theorem initExec_heap (h : List String) (p : PipelineRefs) :
    (initExecBindings h p).heap =
      ((h ++ [h.getD p.clients ""]) ++ [(h ++ [h.getD p.clients ""]).getD p.invoices ""]) ++
        [((h ++ [h.getD p.clients ""]) ++
            [(h ++ [h.getD p.clients ""]).getD p.invoices ""]).getD p.line_items ""] := rfl

theorem initExec_clients (h : List String) (p : PipelineRefs) :
    (initExecBindings h p).clients = h.length := rfl

theorem initExec_invoices (h : List String) (p : PipelineRefs) :
    (initExecBindings h p).invoices = h.length + 1 := by
  show (h ++ [h.getD p.clients ""]).length = h.length + 1
  simp

theorem initExec_line_items (h : List String) (p : PipelineRefs) :
    (initExecBindings h p).line_items = h.length + 2 := by
  show ((h ++ [h.getD p.clients ""]) ++
      [(h ++ [h.getD p.clients ""]).getD p.invoices ""]).length = h.length + 2
  simp only [List.length_append, List.length_cons, List.length_nil]

theorem initExec_heap_getD_lt (h : List String) (p : PipelineRefs) (r : Nat)
    (hr : r < h.length) :
    (initExecBindings h p).heap.getD r "" = h.getD r "" := by
  rw [initExec_heap]
  exact getD_snoc3_lt h _ _ _ r hr

theorem execView_spec (h : List String) (p : PipelineRefs)
    (hi : p.invoices < h.length) (hl : p.line_items < h.length) :
    execView h p = (h.getD p.clients "", h.getD p.invoices "", h.getD p.line_items "") := by
  have hb : (h ++ [h.getD p.clients ""]).getD p.invoices "" = h.getD p.invoices "" :=
    List.getD_append _ _ _ _ hi
  have hcv : ((h ++ [h.getD p.clients ""]) ++
      [(h ++ [h.getD p.clients ""]).getD p.invoices ""]).getD p.line_items "" =
        h.getD p.line_items "" := by
    rw [List.getD_append _ _ _ _
          (by simp only [List.length_append, List.length_cons, List.length_nil]; omega),
        List.getD_append _ _ _ _ hl]
  show ((initExecBindings h p).heap.getD (initExecBindings h p).clients "",
        (initExecBindings h p).heap.getD (initExecBindings h p).invoices "",
        (initExecBindings h p).heap.getD (initExecBindings h p).line_items "") = _
  rw [initExec_heap, initExec_clients, initExec_invoices, initExec_line_items,
      getD_snoc3_first, getD_snoc3_second, getD_snoc3_third, hcv, hb]

/-- C3: if the pipeline references are valid, the heap only grows, and an
execution mutates only the three references bound into its namespace
(the fresh copies), then the canonical dataset entries are unchanged by
the mutation and a subsequent execution started on the mutated heap still
sees exactly the canonical contents. -/
theorem execution_isolation (h : List String) (p : PipelineRefs) (hm : List String)
    (hc : p.clients < h.length) (hi : p.invoices < h.length) (hl : p.line_items < h.length)
    (hgrow : h.length ≤ hm.length)
    (hframe : ∀ r : Nat, r ≠ (initExecBindings h p).clients →
        r ≠ (initExecBindings h p).invoices → r ≠ (initExecBindings h p).line_items →
        hm.getD r "" = (initExecBindings h p).heap.getD r "") :
    hm.getD p.clients "" = h.getD p.clients "" ∧
    hm.getD p.invoices "" = h.getD p.invoices "" ∧
    hm.getD p.line_items "" = h.getD p.line_items "" ∧
    execView hm p = (h.getD p.clients "", h.getD p.invoices "", h.getD p.line_items "") := by
  have hcanon : ∀ r : Nat, r < h.length → hm.getD r "" = h.getD r "" := by
    intro r hr
    have n1 : r ≠ (initExecBindings h p).clients := by rw [initExec_clients]; omega
    have n2 : r ≠ (initExecBindings h p).invoices := by rw [initExec_invoices]; omega
    have n3 : r ≠ (initExecBindings h p).line_items := by rw [initExec_line_items]; omega
    rw [hframe r n1 n2 n3, initExec_heap_getD_lt h p r hr]
  refine ⟨hcanon p.clients hc, hcanon p.invoices hi, hcanon p.line_items hl, ?_⟩
  rw [execView_spec hm p (Nat.lt_of_lt_of_le hi hgrow) (Nat.lt_of_lt_of_le hl hgrow),
      hcanon p.clients hc, hcanon p.invoices hi, hcanon p.line_items hl]

/-- C3 witness: a concrete heap with three canonical tables; the execution
copies live at references 3, 4, 5 and are mutated to `X`, `Y`, `Z`; the
canonical entries and the view of a second execution are unaffected. -/
theorem execution_isolation_w :
    (["CL", "IN", "LI", "X", "Y", "Z"] : List String).getD 0 "" =
      (["CL", "IN", "LI"] : List String).getD 0 "" ∧
    (["CL", "IN", "LI", "X", "Y", "Z"] : List String).getD 1 "" =
      (["CL", "IN", "LI"] : List String).getD 1 "" ∧
    (["CL", "IN", "LI", "X", "Y", "Z"] : List String).getD 2 "" =
      (["CL", "IN", "LI"] : List String).getD 2 "" ∧
    execView ["CL", "IN", "LI", "X", "Y", "Z"] ⟨0, 1, 2⟩ =
      ((["CL", "IN", "LI"] : List String).getD 0 "",
       (["CL", "IN", "LI"] : List String).getD 1 "",
       (["CL", "IN", "LI"] : List String).getD 2 "") := by
  refine execution_isolation ["CL", "IN", "LI"] ⟨0, 1, 2⟩ ["CL", "IN", "LI", "X", "Y", "Z"]
    (by decide) (by decide) (by decide) (by decide) ?_
  intro r n1 n2 n3
  have e1 : (initExecBindings ["CL", "IN", "LI"] (⟨0, 1, 2⟩ : PipelineRefs)).clients = 3 := rfl
  have e2 : (initExecBindings ["CL", "IN", "LI"] (⟨0, 1, 2⟩ : PipelineRefs)).invoices = 4 := rfl
  have e3 : (initExecBindings ["CL", "IN", "LI"] (⟨0, 1, 2⟩ : PipelineRefs)).line_items = 5 := rfl
  rw [e1] at n1
  rw [e2] at n2
  rw [e3] at n3
  show (["CL", "IN", "LI", "X", "Y", "Z"] : List String).getD r "" =
    (["CL", "IN", "LI", "CL", "IN", "LI"] : List String).getD r ""
  rcases r with _ | _ | _ | _ | _ | _ | n
  · rfl
  · rfl
  · rfl
  · exact absurd rfl n1
  · exact absurd rfl n2
  · exact absurd rfl n3
  · simp only [Nat.succ_eq_add_one, List.getD_cons_succ, List.getD_nil]
